import Mathlib

/-
Verification of the IPRescue tool core (Scripts/IPRescue_prog.py and
Scripts/IPRescue_UI.py) against its design specification.

The embedding models the host application (Maya) as explicit state:
the ambient selection and per-vertex deformer weights for the painting
routine, and the viewport / playback / undo-chunk globals for the
transaction guard around each UI entry point.  Host capabilities whose
internals are external to the tool (topological conversion, selection
growth, brush-stroke math) are opaque function fields of the `Mesh`
structure, as the spec directs ("abstract capabilities, not concrete
APIs").  Python-level typing that matters to the code (float slider
values versus int coercion, `range` raising TypeError on a float) is
modelled by the `PyNum` type.
-/

namespace IPRescue

/-- Errors observable in the scripts: `typeError` (Python `range` on a
float), `indexError` (subscripting the empty `mc.ls` result in
`selection_check`, the realisation of the spec's EmptySelectionError),
`hostError` (a Maya command failing), `attributeError` (reading an
instance attribute that was never assigned, as `execute_pull` does with
`self.geo`). -/
inductive PyErr where
  | typeError
  | indexError
  | hostError
  | attributeError
  deriving DecidableEq, Repr

/-- A Python number as the scripts see it: the runtime distinguishes
ints from floats, and `range` accepts only ints. -/
inductive PyNum where
  | int (n : Int)
  | float (q : Rat)
  deriving DecidableEq, Repr

/-- Python `int()` truncation toward zero of a float value. -/
def pyTruncate (q : Rat) : Int :=
  if q < 0 then -((-q).floor) else q.floor

/-- The Python `int(...)` coercion as applied by the scripts to slider
values. -/
def pyIntCoerce : PyNum → PyNum
  | .int n => .int n
  | .float q => .int (pyTruncate q)

/-- Python `range(x)`: the number of loop iterations; raises TypeError
when `x` is a float (even an integral-valued one such as `2.0`). -/
def pyRangeLen : PyNum → Except PyErr Nat
  | .int n => .ok n.toNat
  | .float _ => .error .typeError

/-- `Sliders.value_text` (Resources/UI_utils.py, lines 85-88): the text
field's contents are returned through `float(...)`, so every slider read
is a Python float. -/
def value_text (q : Rat) : PyNum := PyNum.float q

/-- One element of the flattened viewport selection (`mc.ls(sl=True,
fl=True)`), classified the way `selection_check` classifies it by its
suffix: a vertex (`.vtx`), an edge (`.e`), a face (`.f`), or a plain
object name (object-mode selection, no component suffix). -/
inductive Item where
  | vtxItem (v : Nat)
  | edgeItem (e : Nat)
  | faceItem (f : Nat)
  | objItem (name : String)
  deriving DecidableEq, Repr

/-- The brush operation currently active in the paint context. -/
inductive BrushOp where
  | replace
  | smooth
  deriving DecidableEq, Repr

/-- The mesh together with the opaque host capabilities the tool calls
into: edge-to-vertex and face-to-vertex conversion
(`mc.polyListComponentConversion`), selection ring growth
(`mc.GrowPolygonSelectionRegion`), and the brush-stroke weight math of
a flood stroke (`artAttrCtx -e -clear`), none of which the tool
implements itself. -/
structure Mesh where
  verts : List Nat
  edgeVerts : Nat → List Nat
  faceVerts : Nat → List Nat
  growSel : List Nat → List Nat
  floodWeights : BrushOp → Rat → List Nat → (Nat → Rat) → Nat → Rat

/-- `mc.polyListComponentConversion(items, fe=1, tv=1)`: the vertices
incident to the edge components of the list (non-edge entries are not
"from edge" sources and contribute nothing). -/
def polyConvEdgesToVerts (m : Mesh) : List Item → List Nat
  | [] => []
  | Item.edgeItem e :: t => m.edgeVerts e ++ polyConvEdgesToVerts m t
  | _ :: t => polyConvEdgesToVerts m t

/-- `mc.polyListComponentConversion(items, ff=1, tv=1)`: the vertices
incident to the face components of the list. -/
def polyConvFacesToVerts (m : Mesh) : List Item → List Nat
  | [] => []
  | Item.faceItem f :: t => m.faceVerts f ++ polyConvFacesToVerts m t
  | _ :: t => polyConvFacesToVerts m t

/-- One iteration of the classification loop in `selection_check`
(IPRescue_prog.py, lines 48-61): a vertex item is appended as is; an
edge or face item appends the conversion of the whole flattened list
(the code passes `geo_type`, not the single item, to
`polyListComponentConversion`); an object name matches no suffix branch
and contributes nothing. -/
def classifyStep (m : Mesh) (geo_type : List Item) (acc : List Nat) :
    Item → List Nat
  | .vtxItem v => acc ++ [v]
  | .edgeItem _ => acc ++ polyConvEdgesToVerts m geo_type
  | .faceItem _ => acc ++ polyConvFacesToVerts m geo_type
  | .objItem _ => acc

/-- The vertex list `vtxSel` accumulated by `selection_check` over the
flattened selection. -/
def resolvedVerts (m : Mesh) (geo_type : List Item) : List Nat :=
  geo_type.foldl (classifyStep m geo_type) []

/-- `selection_check` (IPRescue_prog.py, lines 42-63).  `objSel` is
`mc.ls(sl=True, o=True)` and `geo_type` is `mc.ls(sl=True, fl=True)`.
With nothing selected, `objSel` is empty and the subscript `[0]` raises
IndexError (the spec's EmptySelectionError) before anything else runs.
Otherwise the function returns the first object, the flattened list,
and the accumulated vertex list. -/
def selection_check (m : Mesh) (objSel : List String) (geo_type : List Item) :
    Except PyErr (String × List Item × List Nat) :=
  match objSel with
  | [] => .error .indexError
  | geo :: _ => .ok (geo, geo_type, resolvedVerts m geo_type)

/-- The host commands issued by `paint_mode`, in the vocabulary of the
MEL/cmds calls it makes. -/
inductive HostCmd where
  | selectObj (geo : String)
  | selectVerts (vtx : List Nat)
  | percentZero (dName : String)
  | enterPaintTool
  | selectPaintAttr (dType dName : String)
  | paintOpReplace
  | paintValue (v : Int)
  | flood
  | invertSel
  | growSel
  | paintOpSmooth
  deriving DecidableEq, Repr

/-- The opening commands of `paint_mode` (IPRescue_prog.py, lines
67-70): select the whole object (`mc.select(geo, af=1)`), zero the
deformer weights on the selection (`mc.percent(deformer_name, v=0)`),
enter the paint tool, and scope it to the deformer's weight channel. -/
def paintSetup (geo dType dName : String) : List HostCmd :=
  [.selectObj geo, .percentZero dName, .enterPaintTool,
   .selectPaintAttr dType dName]

/-- The replace-stroke and inversion commands of `paint_mode`
(IPRescue_prog.py, lines 72-79): select the components, set the Replace
operation at value 1, flood it, reselect the components, and invert the
selection. -/
def replacePhase (vtx : List Nat) : List HostCmd :=
  [.selectVerts vtx, .paintOpReplace, .paintValue 1, .flood,
   .selectVerts vtx, .invertSel]

/-- `paint_mode` (IPRescue_prog.py, lines 65-90), as the list of host
commands it issues in order, together with the Python exception (if
any) raised while issuing them and caught by the routine's own
`except` block.  With an empty component list the body of `if vtx:` is
skipped.  Otherwise, after the replace stroke and the inversion, the
code evaluates `range(smooth_value)`: on a float this raises TypeError
on the spot, so the grow loop, the smooth strokes and the final
restoring `mc.select(vtx)` are never reached; on an int the grow loop
runs `smooth_value` times, the Smooth operation is set at value 1, the
flood stroke is repeated `smooth_value` times, and the original
component selection is restored. -/
def paint_mode (geo : String) (vtx : List Nat) (smooth_value : PyNum)
    (dType dName : String) : List HostCmd × Option PyErr :=
  if vtx.isEmpty then (paintSetup geo dType dName, none)
  else
    match pyRangeLen smooth_value with
    | .error e => (paintSetup geo dType dName ++ replacePhase vtx, some e)
    | .ok n =>
        (paintSetup geo dType dName ++ replacePhase vtx
          ++ List.replicate n .growSel
          ++ [.paintOpSmooth, .paintValue 1]
          ++ List.replicate n .flood
          ++ [.selectVerts vtx], none)

/-- The host-side state the painting commands act on: the ambient
selection, the deformer's per-vertex weights, and the current brush
operation and value. -/
structure PaintState where
  selection : List Nat
  weights : Nat → Rat
  op : BrushOp
  value : Rat

/-- The effect of one host command on the paint state.  Selecting the
object selects the whole mesh (with `af=1` the object is added to the
active list, which already holds only components of that mesh);
`mc.percent(name, v=0)` zeroes the weights of the selected vertices;
`invertSelection` complements the selection within the mesh;
`GrowPolygonSelectionRegion` applies the host's ring growth; a flood
stroke applies the host's brush math at the current operation and
value; the remaining commands configure the tool and do not touch this
state. -/
def applyCmd (m : Mesh) (s : PaintState) : HostCmd → PaintState
  | .selectObj _ => { s with selection := m.verts }
  | .selectVerts vtx => { s with selection := vtx }
  | .percentZero _ =>
      { s with weights := fun v => if v ∈ s.selection then 0 else s.weights v }
  | .enterPaintTool => s
  | .selectPaintAttr _ _ => s
  | .paintOpReplace => { s with op := .replace }
  | .paintOpSmooth => { s with op := .smooth }
  | .paintValue n => { s with value := (n : Rat) }
  | .flood =>
      { s with weights := m.floodWeights s.op s.value s.selection s.weights }
  | .invertSel =>
      { s with selection := m.verts.filter (fun v => decide (v ∉ s.selection)) }
  | .growSel => { s with selection := m.growSel s.selection }

/-- Run a command list against the host state. -/
def runCmds (m : Mesh) (cmds : List HostCmd) (s : PaintState) : PaintState :=
  cmds.foldl (applyCmd m) s

/-- Run a command list against a host that fails: `failAt = some i`
makes the i-th command raise before taking effect, leaving the effects
of the commands before it in place; `failAt = none` is the infallible
run. -/
def runFallible (m : Mesh) :
    List HostCmd → Option Nat → PaintState → PaintState × Option PyErr
  | [], _, s => (s, none)
  | _ :: _, some 0, s => (s, some PyErr.hostError)
  | c :: cs, some (i + 1), s => runFallible m cs (some i) (applyCmd m s c)
  | c :: cs, none, s => runFallible m cs none (applyCmd m s c)

/-- `paint_mode` executed against a (possibly failing) host, including
its own try/except: every exception, whether a host-command failure or
the TypeError from `range`, is caught inside the routine and printed as
one warning.  The result is the final host state and the number of
warnings printed; the routine itself always returns normally. -/
def paint_mode_run (m : Mesh) (failAt : Option Nat) (geo : String)
    (vtx : List Nat) (smooth_value : PyNum) (dType dName : String)
    (s : PaintState) : PaintState × Nat :=
  match paint_mode geo vtx smooth_value dType dName with
  | (cmds, pyerr) =>
    match runFallible m cmds failAt s with
    | (s2, some _) => (s2, 1)
    | (s2, none) =>
      match pyerr with
      | some _ => (s2, 1)
      | none => (s2, 0)

/-- The construction record of a textureDeformer as `texture_deformer`
(IPRescue_prog.py, lines 108-115) requests it from the host: enveloped,
Normal direction, UV point space, the given strength and offset, the
requested name suffixed `_texDef`, the texture colour pinned to
(1,1,1), and the manipulator handle hidden from the outliner. -/
structure TexDefSpec where
  target : String
  name : String
  envelope : Bool
  strength : Rat
  direction : String
  pointSpace : String
  offset : Rat
  texture : Rat × Rat × Rat
  handleHidden : Bool
  deriving DecidableEq, Repr

/-- `texture_deformer` (IPRescue_prog.py, lines 108-115). -/
def texture_deformer (geo : String) (_vtx : List Nat) (offset : Rat)
    (strength_value : Rat) (name : String) : TexDefSpec :=
  { target := geo
    name := name ++ "_texDef"
    envelope := true
    strength := strength_value
    direction := "Normal"
    pointSpace := "UV"
    offset := offset
    texture := (1, 1, 1)
    handleHidden := true }

/-- The deformer spec built by `PullPush.execute_pull` (IPRescue_UI.py,
lines 321-325): offset 1, the slider strength unchanged, and a name
derived from `self.geo` as it was BEFORE this invocation resolved the
selection (line 322 runs before `check_sliders_values`). -/
def pull_deformer_spec (geo : String) (vtx : List Nat)
    (strength_value : Rat) (staleGeo : String) : TexDefSpec :=
  texture_deformer geo vtx 1 strength_value (staleGeo ++ "_Pull")

/-- The deformer spec built by `PullPush.execute_push` (IPRescue_UI.py,
lines 330-339): offset -1, the slider strength multiplied by -1, and a
name derived from the freshly resolved object. -/
def push_deformer_spec (geo : String) (vtx : List Nat)
    (strength_value : Rat) : TexDefSpec :=
  texture_deformer geo vtx (-1) (strength_value * -1) (geo ++ "_Push")

/-- The scene facts `deltaMush` consults: `mc.objectType` and
`mc.listRelatives(geo, parent=True)[0]`. -/
structure Scene where
  objectType : String → String
  parentOf : String → String

/-- The construction record of a deltaMush deformer as `deltaMush`
(IPRescue_prog.py, lines 92-106) requests it: the node it is attached
to, its name, the smoothing-step flag (`ss=1`, mesh branch only), the
iteration count, and the `setAttr` calls issued after creation. -/
structure DeltaMushSpec where
  target : String
  name : String
  smoothingStep : Option Rat
  smoothingIterations : Int
  postSetAttrs : List (String × Rat)
  deriving DecidableEq, Repr

/-- `deltaMush` (IPRescue_prog.py, lines 92-106): when the target is a
polygonal mesh the deformer is created on the mesh's parent transform
with `ss=1` and its displacement attribute is set to 0 afterwards;
otherwise it is created on the node itself with no displacement
adjustment. -/
def deltaMush (sc : Scene) (geo : String) (iteration_value : Int) :
    DeltaMushSpec :=
  if sc.objectType geo = "mesh" then
    let geo_transform := sc.parentOf geo
    { target := geo_transform
      name := geo_transform ++ "_superDelta"
      smoothingStep := some 1
      smoothingIterations := iteration_value
      postSetAttrs := [(geo_transform ++ "_superDelta" ++ ".displacement", 0)] }
  else
    { target := geo
      name := geo ++ "_superDelta"
      smoothingStep := none
      smoothingIterations := iteration_value
      postSetAttrs := [] }

/-- The host globals the entry points' transaction handling touches:
the viewport manage flag of `$gMainPane`, the current playback time,
the playback range start (`playbackOptions -q -minTime`), the number of
undo chunks opened and closed, the number of error dialogs shown, and
the number of deformers created. -/
structure MayaState where
  viewportManaged : Bool
  time : Int
  minTime : Int
  opens : Nat
  closes : Nat
  errorDialogs : Nat
  deformersCreated : Nat
  deriving DecidableEq, Repr

/-- The outcome of one UI entry point: the final host globals, the
exception (if any) that escaped the entry point uncaught, the
arguments (component list and smooth value) handed to `paint_mode` if
the call was reached, and the textureDeformer construction record if
one was built. -/
structure ExecResult where
  state : MayaState
  raised : Option PyErr
  paintCall : Option (List Nat × PyNum)
  texDef : Option TexDefSpec
  deriving DecidableEq, Repr

/-- `superDelta.execute` (IPRescue_UI.py, lines 162-196).
`selection_check` runs before the try block: with nothing selected its
IndexError escapes the method with no state touched.  Inside the try:
open an undo chunk, unmanage the viewport, snapshot the current time,
jump to the playback start, create the deltaMush (the point at which a
host failure is modelled by `creationRaises`), run `paint_mode` with
the int-coerced smooth slider value (`paint_mode` never raises), jump
back to the snapshot, re-manage the viewport and close the chunk.  The
except block re-manages the viewport, closes the chunk and shows an
error dialog - it does NOT restore the snapshot time. -/
def superDelta_execute (m : Mesh) (objSel : List String)
    (geo_type : List Item) (_iterText smoothText : Rat)
    (creationRaises : Bool) (s : MayaState) : ExecResult :=
  match selection_check m objSel geo_type with
  | .error e => { state := s, raised := some e, paintCall := none, texDef := none }
  | .ok (_geo, _gt, vtxSel) =>
    let s1 : MayaState := { s with opens := s.opens + 1 }
    let s2 : MayaState := { s1 with viewportManaged := false }
    let savedTime : Int := s2.time
    let s3 : MayaState := { s2 with time := s2.minTime }
    if creationRaises then
      { state :=
          { s3 with
            viewportManaged := true
            closes := s3.closes + 1
            errorDialogs := s3.errorDialogs + 1 }
        raised := none
        paintCall := none
        texDef := none }
    else
      let s4 : MayaState :=
        { s3 with deformersCreated := s3.deformersCreated + 1 }
      let s5 : MayaState := { s4 with time := savedTime }
      let s6 : MayaState := { s5 with viewportManaged := true }
      { state := { s6 with closes := s6.closes + 1 }
        raised := none
        paintCall := some (vtxSel, pyIntCoerce (value_text smoothText))
        texDef := none }

/-- `PullPush.execute_pull` (IPRescue_UI.py, lines 321-326).  Line 322
reads `self.geo` before this invocation resolves the selection: if the
attribute was never assigned (`prevGeo = none`) an AttributeError
escapes at once.  Then `check_sliders_values` resolves the selection
(an empty selection's IndexError escapes), the textureDeformer is
created and `paint_mode` is run with the int-coerced smooth value.
There is no try/except, no undo chunk and no viewport handling: a
creation failure escapes the method, and no state bookkeeping happens
on any path. -/
def execute_pull (m : Mesh) (prevGeo : Option String)
    (objSel : List String) (geo_type : List Item)
    (strengthText _smoothTextPull : Rat) (creationRaises : Bool)
    (s : MayaState) : ExecResult :=
  match prevGeo with
  | none =>
    { state := s, raised := some .attributeError, paintCall := none,
      texDef := none }
  | some g0 =>
    match selection_check m objSel geo_type with
    | .error e =>
      { state := s, raised := some e, paintCall := none, texDef := none }
    | .ok (geo, _gt, vtxSel) =>
      if creationRaises then
        { state := s, raised := some .hostError, paintCall := none,
          texDef := none }
      else
        { state := { s with deformersCreated := s.deformersCreated + 1 }
          raised := none
          paintCall := some (vtxSel, pyIntCoerce (value_text _smoothTextPull))
          texDef := some (pull_deformer_spec geo vtxSel strengthText g0) }

/-- `PullPush.execute_push` (IPRescue_UI.py, lines 328-348).
`selection_check` runs (twice, identically) before the try block, so an
empty selection's IndexError escapes with no state touched.  Inside the
try: open an undo chunk, unmanage the viewport, create the
textureDeformer with offset -1 and negated strength, run `paint_mode`
handing it `self.paint_smooth_value` UNCOERCED - still the float that
`value_text` returned - then re-manage the viewport and close the
chunk.  The except block re-manages the viewport, closes the chunk and
shows an error dialog.  No playback-time handling exists on this
path. -/
def execute_push (m : Mesh) (objSel : List String) (geo_type : List Item)
    (strengthText smoothText : Rat) (creationRaises : Bool)
    (s : MayaState) : ExecResult :=
  match selection_check m objSel geo_type with
  | .error e =>
    { state := s, raised := some e, paintCall := none, texDef := none }
  | .ok (geo, _gt, vtxSel) =>
    let s1 : MayaState := { s with opens := s.opens + 1 }
    let s2 : MayaState := { s1 with viewportManaged := false }
    if creationRaises then
      { state :=
          { s2 with
            viewportManaged := true
            closes := s2.closes + 1
            errorDialogs := s2.errorDialogs + 1 }
        raised := none
        paintCall := none
        texDef := none }
    else
      let s3 : MayaState :=
        { s2 with deformersCreated := s2.deformersCreated + 1 }
      let s4 : MayaState := { s3 with viewportManaged := true }
      { state := { s4 with closes := s4.closes + 1 }
        raised := none
        paintCall := some (vtxSel, value_text smoothText)
        texDef := some (push_deformer_spec geo vtxSel strengthText) }

/-- A concrete mesh used by the witnesses: four vertices, identity
growth, brush strokes leave weights unchanged. -/
def m0 : Mesh :=
  { verts := [0, 1, 2, 3]
    edgeVerts := fun e => [e, e + 1]
    faceVerts := fun f => [f, f + 1]
    growSel := fun l => l
    floodWeights := fun _ _ _ w => w }

/-- A concrete pre-call host state used by the witnesses: viewport
managed, playback time 10, playback start 1, no chunks, dialogs or
deformers yet. -/
def s0 : MayaState :=
  { viewportManaged := true, time := 10, minTime := 1, opens := 0,
    closes := 0, errorDialogs := 0, deformersCreated := 0 }

/-- A concrete paint state used by the witnesses: nothing selected,
all weights 1. -/
def p0 : PaintState :=
  { selection := [], weights := fun _ => 1, op := .replace, value := 0 }

/-- A concrete scene used by the witnesses: everything is a mesh whose
parent transform carries a `_grp` suffix. -/
def sc0 : Scene :=
  { objectType := fun _ => "mesh", parentOf := fun g => g ++ "_grp" }

section Lemmas

/-- The classification loop contributes nothing for object-mode items:
an object name matches no component-suffix branch. -/
theorem foldl_classify_obj (m : Mesh) (full : List Item) :
    ∀ (l : List Item) (acc : List Nat),
      (∀ it ∈ l, ∃ n, it = Item.objItem n) →
      l.foldl (classifyStep m full) acc = acc := by
  intro l
  induction l with
  | nil => intro acc _; rfl
  | cons a t ih =>
    intro acc h
    obtain ⟨n, rfl⟩ := h a (by simp)
    simpa [classifyStep] using ih acc (fun it hit => h it (by simp [hit]))

/-- Membership in the face-to-vertex conversion of a list: exactly the
vertices incident to some face component of the list. -/
theorem mem_polyConvFacesToVerts (m : Mesh) (v : Nat) :
    ∀ l : List Item,
      (v ∈ polyConvFacesToVerts m l ↔
        ∃ f, Item.faceItem f ∈ l ∧ v ∈ m.faceVerts f) := by
  intro l
  induction l with
  | nil => simp [polyConvFacesToVerts]
  | cons a t ih =>
    cases a with
    | vtxItem w => simp [polyConvFacesToVerts, ih]
    | edgeItem e => simp [polyConvFacesToVerts, ih]
    | objItem n => simp [polyConvFacesToVerts, ih]
    | faceItem f =>
      simp only [polyConvFacesToVerts, List.mem_append, ih, List.mem_cons]
      constructor
      · rintro (hv | ⟨g, hg, hvg⟩)
        · exact ⟨f, Or.inl rfl, hv⟩
        · exact ⟨g, Or.inr hg, hvg⟩
      · rintro ⟨g, hg | hg, hvg⟩
        · cases hg; exact Or.inl hvg
        · exact Or.inr ⟨g, hg, hvg⟩

/-- Membership in the classification fold over a faces-only list: the
accumulator, plus (when the list is non-empty) the conversion of the
full flattened list. -/
theorem mem_foldl_faces (m : Mesh) (full : List Item) (v : Nat) :
    ∀ (l : List Item) (acc : List Nat),
      (∀ it ∈ l, ∃ f, it = Item.faceItem f) →
      (v ∈ l.foldl (classifyStep m full) acc ↔
        v ∈ acc ∨ (l ≠ [] ∧ v ∈ polyConvFacesToVerts m full)) := by
  intro l
  induction l with
  | nil => intro acc _; simp
  | cons a t ih =>
    intro acc h
    obtain ⟨f, rfl⟩ := h a (by simp)
    have ht := ih (acc ++ polyConvFacesToVerts m full)
      (fun it hit => h it (by simp [hit]))
    simp only [List.foldl, classifyStep] at *
    rw [ht]
    simp only [List.mem_append]
    constructor
    · rintro ((hv | hv) | ⟨hne, hv⟩)
      · exact Or.inl hv
      · exact Or.inr ⟨by simp, hv⟩
      · exact Or.inr ⟨by simp, hv⟩
    · rintro (hv | ⟨_, hv⟩)
      · exact Or.inl (Or.inl hv)
      · exact Or.inl (Or.inr hv)

/-- The infallible run is `runFallible` with no failure point. -/
theorem runFallible_none (m : Mesh) :
    ∀ (cmds : List HostCmd) (s : PaintState),
      runFallible m cmds none s = (runCmds m cmds s, none) := by
  intro cmds
  induction cmds with
  | nil => intro s; rfl
  | cons c cs ih => intro s; simp [runFallible, runCmds, List.foldl, ih]

/-- Failing at index `i` inside the command list executes exactly the
prefix of length `i` and reports the host error. -/
theorem runFallible_prefix (m : Mesh) :
    ∀ (cmds : List HostCmd) (i : Nat) (s : PaintState),
      i < cmds.length →
      runFallible m cmds (some i) s =
        (runCmds m (cmds.take i) s, some PyErr.hostError) := by
  intro cmds
  induction cmds with
  | nil => intro i s h; simp at h
  | cons c cs ih =>
    intro i s h
    cases i with
    | zero => rfl
    | succ j =>
      have hj : j < cs.length := by simpa using h
      simp [runFallible, runCmds, List.foldl, ih j (applyCmd m s c) hj]

end Lemmas

/-- C3: when no object is selected, `mc.ls(sl=True, o=True)` is empty
and the subscript `[0]` in `selection_check` fails at once (the
IndexError realising the spec's EmptySelectionError); in
`superDelta.execute` this happens before the try block, so the error
escapes with the host globals untouched - no undo chunk opened, no
deformer created, no paint call made, no scene state changed. -/
theorem C3_empty_selection_aborts_before_mutation (m : Mesh)
    (geo_type : List Item) (iterText smoothText : Rat)
    (creationRaises : Bool) (s : MayaState) :
    selection_check m [] geo_type = Except.error PyErr.indexError
    ∧ (superDelta_execute m [] geo_type iterText smoothText
        creationRaises s).state = s
    ∧ (superDelta_execute m [] geo_type iterText smoothText
        creationRaises s).raised = some PyErr.indexError
    ∧ (superDelta_execute m [] geo_type iterText smoothText
        creationRaises s).paintCall = none := by
  exact ⟨rfl, rfl, rfl, rfl⟩

/-- C5: for a component-mode selection consisting only of face
references, `selection_check` succeeds and its vertex list contains a
vertex exactly when that vertex is incident to one of the selected
faces - no incident vertex is omitted and no other vertex appears
(duplicates are possible and permitted). -/
theorem C5_faces_resolve_to_incident_vertices (m : Mesh) (geo : String)
    (gs : List String) (fs : List Nat) :
    selection_check m (geo :: gs) (fs.map Item.faceItem) =
      Except.ok (geo, fs.map Item.faceItem,
        resolvedVerts m (fs.map Item.faceItem))
    ∧ ∀ v, v ∈ resolvedVerts m (fs.map Item.faceItem) ↔
        ∃ f ∈ fs, v ∈ m.faceVerts f := by
  refine ⟨rfl, fun v => ?_⟩
  unfold resolvedVerts
  rw [mem_foldl_faces m (fs.map Item.faceItem) v (fs.map Item.faceItem) []
    (by intro it hit; simp only [List.mem_map] at hit
        obtain ⟨f, _, rfl⟩ := hit; exact ⟨f, rfl⟩)]
  rw [mem_polyConvFacesToVerts]
  constructor
  · rintro (hv | ⟨_, g, hg, hvg⟩)
    · simp at hv
    · simp only [List.mem_map] at hg
      obtain ⟨f, hf, hfg⟩ := hg
      have : f = g := by injection hfg
      exact ⟨g, this ▸ hf, hvg⟩
  · rintro ⟨f, hf, hvf⟩
    refine Or.inr ⟨List.ne_nil_of_mem (List.mem_map_of_mem Item.faceItem hf),
      f, ?_, hvf⟩
    simp only [List.mem_map]
    exact ⟨f, hf, rfl⟩

/-- C7: for the same slider strength, the textureDeformer built by the
Push button carries the negated strength (and negated offset) of the
one built by the Pull button; the effective magnitude handed to the
host is sign-inverted. -/
theorem C7_push_strength_negates_pull (geo staleGeo : String)
    (vtx : List Nat) (strength : Rat) :
    (push_deformer_spec geo vtx strength).strength =
      -((pull_deformer_spec geo vtx strength staleGeo).strength)
    ∧ (push_deformer_spec geo vtx strength).offset =
      -((pull_deformer_spec geo vtx strength staleGeo).offset) := by
  constructor
  · simp [push_deformer_spec, pull_deformer_spec, texture_deformer]
  · simp [push_deformer_spec, pull_deformer_spec, texture_deformer]

/-- C9: when the target of `deltaMush` is a polygonal mesh, the
deformer is created on the mesh's parent transform (not the shape
node) and a post-creation `setAttr` zeroes its displacement
attribute. -/
theorem C9_deltaMush_mesh_parent_and_zero_displacement (sc : Scene)
    (geo : String) (iteration_value : Int)
    (h : sc.objectType geo = "mesh") :
    (deltaMush sc geo iteration_value).target = sc.parentOf geo
    ∧ ((deltaMush sc geo iteration_value).name ++ ".displacement",
        (0 : Rat)) ∈ (deltaMush sc geo iteration_value).postSetAttrs := by
  simp [deltaMush, h]

/-- C9 witness: the theorem applied to a concrete mesh scene. -/
theorem C9_deltaMush_mesh_parent_and_zero_displacement_witness :
    sc0.objectType "pSphereShape1" = "mesh"
    ∧ ((deltaMush sc0 "pSphereShape1" 10).target = sc0.parentOf "pSphereShape1"
      ∧ ((deltaMush sc0 "pSphereShape1" 10).name ++ ".displacement",
          (0 : Rat)) ∈ (deltaMush sc0 "pSphereShape1" 10).postSetAttrs) :=
  ⟨rfl, C9_deltaMush_mesh_parent_and_zero_displacement sc0 "pSphereShape1" 10 rfl⟩

/-- C4: for an object-mode selection (every flattened item is a plain
object name, no component suffix), `selection_check` resolves to an
empty component list; `paint_mode` then issues only the setup commands
- none of the replace stroke, inversion, growth or smoothing commands
appear - and after running them the deformer's influence weight is zero
on every vertex of the mesh. -/
theorem C4_object_mode_zero_everywhere (m : Mesh) (geo : String)
    (gs : List String) (geo_type : List Item)
    (hobj : ∀ it ∈ geo_type, ∃ n, it = Item.objItem n)
    (smooth : PyNum) (dType dName : String) (s : PaintState) :
    selection_check m (geo :: gs) geo_type =
      Except.ok (geo, geo_type, [])
    ∧ paint_mode geo [] smooth dType dName =
      (paintSetup geo dType dName, none)
    ∧ HostCmd.paintOpReplace ∉ paintSetup geo dType dName
    ∧ HostCmd.invertSel ∉ paintSetup geo dType dName
    ∧ HostCmd.growSel ∉ paintSetup geo dType dName
    ∧ HostCmd.paintOpSmooth ∉ paintSetup geo dType dName
    ∧ HostCmd.flood ∉ paintSetup geo dType dName
    ∧ ∀ v ∈ m.verts,
        (runCmds m (paintSetup geo dType dName) s).weights v = 0 := by
  have h0 : resolvedVerts m geo_type = [] :=
    foldl_classify_obj m geo_type geo_type [] hobj
  refine ⟨by simp [selection_check, h0], rfl, by simp [paintSetup],
    by simp [paintSetup], by simp [paintSetup], by simp [paintSetup],
    by simp [paintSetup], ?_⟩
  intro v hv
  simp [runCmds, paintSetup, applyCmd, hv]

/-- C4 witness: the theorem applied to a concrete object-mode
selection. -/
theorem C4_object_mode_zero_everywhere_witness :
    selection_check m0 ["pSphere1"] [Item.objItem "pSphere1"] =
      Except.ok ("pSphere1", [Item.objItem "pSphere1"], [])
    ∧ (runCmds m0 (paintSetup "pSphere1" "deltaMush" "dm1") p0).weights 2 = 0 :=
  ⟨(C4_object_mode_zero_everywhere m0 "pSphere1" [] [Item.objItem "pSphere1"]
      (by simp) (PyNum.int 2) "deltaMush" "dm1" p0).1,
   (C4_object_mode_zero_everywhere m0 "pSphere1" [] [Item.objItem "pSphere1"]
      (by simp) (PyNum.int 2) "deltaMush" "dm1" p0).2.2.2.2.2.2.2 2 (by simp [m0])⟩

/-- C6: painting a non-empty component selection with `smooth_radius`
0 issues no selection-grow command and no smooth flood stroke (the
Smooth operation is set but its flood loop runs zero times), the only
flood in the whole sequence is the replace stroke, and the selection
in force when the smooth phase is reached is exactly the inverted
component selection, ungrown - a hard-edged influence boundary. -/
theorem C6_zero_radius_hard_edge (m : Mesh) (geo dType dName : String)
    (vtx : List Nat) (s : PaintState) (hne : vtx ≠ []) :
    paint_mode geo vtx (PyNum.int 0) dType dName =
      (paintSetup geo dType dName ++ replacePhase vtx
        ++ [HostCmd.paintOpSmooth, HostCmd.paintValue 1,
            HostCmd.selectVerts vtx], none)
    ∧ HostCmd.growSel ∉ (paint_mode geo vtx (PyNum.int 0) dType dName).1
    ∧ (paint_mode geo vtx (PyNum.int 0) dType dName).1.count HostCmd.flood = 1
    ∧ (runCmds m (paintSetup geo dType dName ++ replacePhase vtx) s).selection
        = m.verts.filter (fun v => decide (v ∉ vtx)) := by
  obtain ⟨a, t, rfl⟩ : ∃ a t, vtx = a :: t := by
    cases vtx with
    | nil => exact absurd rfl hne
    | cons a t => exact ⟨a, t, rfl⟩
  refine ⟨?_, ?_, ?_, ?_⟩
  · simp [paint_mode, pyRangeLen, paintSetup, replacePhase]
  · simp [paint_mode, pyRangeLen, paintSetup, replacePhase]
  · simp [paint_mode, pyRangeLen, paintSetup, replacePhase, List.count_cons]
  · simp [runCmds, paintSetup, replacePhase, applyCmd]

/-- C6 witness: the theorem applied to a concrete two-vertex
selection. -/
theorem C6_zero_radius_hard_edge_witness :
    HostCmd.growSel ∉
      (paint_mode "pSphere1" [0, 1] (PyNum.int 0) "textureDeformer" "td1").1
    ∧ (runCmds m0 (paintSetup "pSphere1" "textureDeformer" "td1"
        ++ replacePhase [0, 1]) p0).selection
        = m0.verts.filter (fun v => decide (v ∉ [0, 1])) :=
  ⟨(C6_zero_radius_hard_edge m0 "pSphere1" "textureDeformer" "td1" [0, 1] p0
      (by simp)).2.1,
   (C6_zero_radius_hard_edge m0 "pSphere1" "textureDeformer" "td1" [0, 1] p0
      (by simp)).2.2.2⟩

/-- C8: a host-command failure at any point of the painting sequence is
caught inside `paint_mode` itself: the routine still returns normally,
reports exactly one consolidated warning, and the resulting host state
is exactly the state after the commands that ran before the failure -
nothing already performed (the zeroed weights, and the deformer created
by the caller beforehand) is rolled back. -/
theorem C8_paint_failure_contained (m : Mesh) (failIdx : Nat)
    (geo : String) (vtx : List Nat) (smooth_value : PyNum)
    (dType dName : String) (s : PaintState)
    (h : failIdx < (paint_mode geo vtx smooth_value dType dName).1.length) :
    paint_mode_run m (some failIdx) geo vtx smooth_value dType dName s =
      (runCmds m
        ((paint_mode geo vtx smooth_value dType dName).1.take failIdx) s,
       1) := by
  rcases hpm : paint_mode geo vtx smooth_value dType dName with ⟨cmds, pyerr⟩
  rw [hpm] at h
  simp only at h
  have hr := runFallible_prefix m cmds failIdx s h
  unfold paint_mode_run
  rw [hpm]
  dsimp only
  rw [hr]

/-- C8 witness: the theorem applied with a failure at the sixth command
of a concrete painting sequence. -/
theorem C8_paint_failure_contained_witness :
    paint_mode_run m0 (some 5) "pSphere1" [0] (PyNum.int 1)
        "textureDeformer" "td1" p0 =
      (runCmds m0
        ((paint_mode "pSphere1" [0] (PyNum.int 1)
          "textureDeformer" "td1").1.take 5) p0,
       1) :=
  C8_paint_failure_contained m0 5 "pSphere1" [0] (PyNum.int 1)
    "textureDeformer" "td1" p0 (by decide)

/-- C10: the Push entry point hands `paint_mode` the raw slider float
(never int-coerced on this path); with a non-empty component selection
the painting sequence therefore executes the setup, the replace stroke
and the inversion, then `range` raises TypeError, which the routine's
own handler catches - so the grow loop, the smooth strokes and the
final restore of the original selection never run. -/
theorem C10_push_hands_float_to_paint (m : Mesh) (geo : String)
    (gs : List String) (geo_type : List Item)
    (strengthText smoothText : Rat) (s : MayaState)
    (hne : resolvedVerts m geo_type ≠ []) :
    (execute_push m (geo :: gs) geo_type strengthText smoothText
      false s).paintCall
      = some (resolvedVerts m geo_type, PyNum.float smoothText)
    ∧ ∀ dType dName,
        paint_mode geo (resolvedVerts m geo_type) (PyNum.float smoothText)
            dType dName
          = (paintSetup geo dType dName
              ++ replacePhase (resolvedVerts m geo_type),
             some PyErr.typeError)
        ∧ HostCmd.flood ∈ (paint_mode geo (resolvedVerts m geo_type)
            (PyNum.float smoothText) dType dName).1
        ∧ HostCmd.invertSel ∈ (paint_mode geo (resolvedVerts m geo_type)
            (PyNum.float smoothText) dType dName).1
        ∧ HostCmd.growSel ∉ (paint_mode geo (resolvedVerts m geo_type)
            (PyNum.float smoothText) dType dName).1
        ∧ HostCmd.paintOpSmooth ∉ (paint_mode geo (resolvedVerts m geo_type)
            (PyNum.float smoothText) dType dName).1 := by
  constructor
  · simp [execute_push, selection_check, value_text]
  · intro dType dName
    obtain ⟨a, t, hv⟩ : ∃ a t, resolvedVerts m geo_type = a :: t := by
      cases hvv : resolvedVerts m geo_type with
      | nil => exact absurd hvv hne
      | cons a t => exact ⟨a, t, rfl⟩
    rw [hv]
    refine ⟨?_, ?_, ?_, ?_, ?_⟩
    · simp [paint_mode, pyRangeLen]
    · simp [paint_mode, pyRangeLen, paintSetup, replacePhase]
    · simp [paint_mode, pyRangeLen, paintSetup, replacePhase]
    · simp [paint_mode, pyRangeLen, paintSetup, replacePhase]
    · simp [paint_mode, pyRangeLen, paintSetup, replacePhase]

/-- C10 witness: the theorem applied to a concrete one-vertex
selection with slider value 2 (still the float 2.0). -/
theorem C10_push_hands_float_to_paint_witness :
    (execute_push m0 ["pSphere1"] [Item.vtxItem 0] 5 2 false s0).paintCall
      = some (resolvedVerts m0 [Item.vtxItem 0], PyNum.float 2)
    ∧ paint_mode "pSphere1" (resolvedVerts m0 [Item.vtxItem 0])
        (PyNum.float 2) "textureDeformer" "td1"
      = (paintSetup "pSphere1" "textureDeformer" "td1"
          ++ replacePhase (resolvedVerts m0 [Item.vtxItem 0]),
         some PyErr.typeError) :=
  ⟨(C10_push_hands_float_to_paint m0 "pSphere1" [] [Item.vtxItem 0] 5 2 s0
      (by decide)).1,
   ((C10_push_hands_float_to_paint m0 "pSphere1" [] [Item.vtxItem 0] 5 2 s0
      (by decide)).2 "textureDeformer" "td1").1⟩

/-- C1 counterexample: with the viewport managed and the playback time
at frame 10 (playback start frame 1), a deformer-creation failure
inside `superDelta.execute` takes the exception path, which re-manages
the viewport and closes the chunk but leaves the playback time at
frame 1: the time is NOT restored to its pre-call value on the
exception path, contrary to the claim. -/
theorem C1_time_not_restored_on_exception :
    (superDelta_execute m0 ["pSphere1"] [Item.objItem "pSphere1"] 10 2
      true s0).state.errorDialogs = 1
    ∧ s0.time = 10
    ∧ (superDelta_execute m0 ["pSphere1"] [Item.objItem "pSphere1"] 10 2
        true s0).state.time = 1 := by
  decide

/-- C1 amended: for every operation entered under the guard (selection
non-empty) starting from a managed viewport, the grouped-undo boundary
is opened and closed exactly once on both the success and the
exception path, and the viewport ends managed (hence restored to its
pre-call value); the playback time is restored to its pre-call value
on the success path, but on the exception path it is left at the
playback start frame. -/
theorem C1_guard_restoration_amended (m : Mesh) (geo : String)
    (gs : List String) (geo_type : List Item)
    (iterText smoothText : Rat) (creationRaises : Bool) (s : MayaState)
    (hv : s.viewportManaged = true) :
    (superDelta_execute m (geo :: gs) geo_type iterText smoothText
      creationRaises s).state.viewportManaged = s.viewportManaged
    ∧ (superDelta_execute m (geo :: gs) geo_type iterText smoothText
        creationRaises s).state.opens = s.opens + 1
    ∧ (superDelta_execute m (geo :: gs) geo_type iterText smoothText
        creationRaises s).state.closes = s.closes + 1
    ∧ (creationRaises = false →
        (superDelta_execute m (geo :: gs) geo_type iterText smoothText
          creationRaises s).state.time = s.time)
    ∧ (creationRaises = true →
        (superDelta_execute m (geo :: gs) geo_type iterText smoothText
          creationRaises s).state.time = s.minTime) := by
  cases creationRaises <;>
    simp [superDelta_execute, selection_check, hv]

/-- C1 amended witness: the amended theorem applied on the exception
path of a concrete state. -/
theorem C1_guard_restoration_amended_witness :
    (superDelta_execute m0 ["pSphere1"] [Item.objItem "pSphere1"] 10 2
      true s0).state.time = s0.minTime
    ∧ (superDelta_execute m0 ["pSphere1"] [Item.objItem "pSphere1"] 10 2
        true s0).state.closes = s0.closes + 1 :=
  ⟨(C1_guard_restoration_amended m0 "pSphere1" [] [Item.objItem "pSphere1"]
      10 2 true s0 rfl).2.2.2.2 rfl,
   (C1_guard_restoration_amended m0 "pSphere1" [] [Item.objItem "pSphere1"]
      10 2 true s0 rfl).2.2.1⟩

/-- C2 counterexample: a successful offset-Pull invocation opens no
undo chunk at all (the claim requires every entry point to run inside
the guard), and when deformer creation fails on the Pull path the
exception escapes the entry point with no error dialog shown (the
claim requires errors to surface via notification, not re-raise). -/
theorem C2_pull_runs_unguarded :
    (execute_pull m0 (some "prevObj") ["pSphere1"] [Item.vtxItem 0] 5 2
      false s0).raised = none
    ∧ (execute_pull m0 (some "prevObj") ["pSphere1"] [Item.vtxItem 0] 5 2
        false s0).state.opens = 0
    ∧ (execute_pull m0 (some "prevObj") ["pSphere1"] [Item.vtxItem 0] 5 2
        true s0).raised = some PyErr.hostError
    ∧ (execute_pull m0 (some "prevObj") ["pSphere1"] [Item.vtxItem 0] 5 2
        true s0).state.errorDialogs = 0 := by
  decide

/-- C2 amended: the smoothing and offset-Push entry points run the
resolve-create-paint sequence inside the guard - undo chunk opened and
closed exactly once, viewport suspended and ending managed, creation
failures surfaced as an error dialog with nothing re-raised, and the
paint call made on success (int-coerced smooth value for smoothing,
the raw float for Push).  The offset-Pull entry point runs the same
sequence with no guard at all: no chunk is opened or closed, the
viewport and dialog state are untouched, a creation failure propagates
out of the entry point, and on success the paint call is made
directly.  (Empty-selection failures escape all three entry points
before any guard opens; see the C3 theorem.) -/
theorem C2_entry_points_amended (m : Mesh) (g0 geo : String)
    (gs : List String) (geo_type : List Item)
    (iterText strengthText smoothText : Rat) (fail : Bool) (s : MayaState)
    (hv : s.viewportManaged = true) :
    ((superDelta_execute m (geo :: gs) geo_type iterText smoothText
        fail s).raised = none
      ∧ (superDelta_execute m (geo :: gs) geo_type iterText smoothText
          fail s).state.opens = s.opens + 1
      ∧ (superDelta_execute m (geo :: gs) geo_type iterText smoothText
          fail s).state.closes = s.closes + 1
      ∧ (superDelta_execute m (geo :: gs) geo_type iterText smoothText
          fail s).state.viewportManaged = true
      ∧ (fail = true →
          (superDelta_execute m (geo :: gs) geo_type iterText smoothText
            fail s).state.errorDialogs = s.errorDialogs + 1)
      ∧ (fail = false →
          (superDelta_execute m (geo :: gs) geo_type iterText smoothText
            fail s).paintCall
            = some (resolvedVerts m geo_type,
                PyNum.int (pyTruncate smoothText))))
    ∧ ((execute_push m (geo :: gs) geo_type strengthText smoothText
        fail s).raised = none
      ∧ (execute_push m (geo :: gs) geo_type strengthText smoothText
          fail s).state.opens = s.opens + 1
      ∧ (execute_push m (geo :: gs) geo_type strengthText smoothText
          fail s).state.closes = s.closes + 1
      ∧ (execute_push m (geo :: gs) geo_type strengthText smoothText
          fail s).state.viewportManaged = true
      ∧ (fail = true →
          (execute_push m (geo :: gs) geo_type strengthText smoothText
            fail s).state.errorDialogs = s.errorDialogs + 1)
      ∧ (fail = false →
          (execute_push m (geo :: gs) geo_type strengthText smoothText
            fail s).paintCall
            = some (resolvedVerts m geo_type, PyNum.float smoothText)))
    ∧ ((execute_pull m (some g0) (geo :: gs) geo_type strengthText
        smoothText fail s).state.opens = s.opens
      ∧ (execute_pull m (some g0) (geo :: gs) geo_type strengthText
          smoothText fail s).state.closes = s.closes
      ∧ (execute_pull m (some g0) (geo :: gs) geo_type strengthText
          smoothText fail s).state.viewportManaged = s.viewportManaged
      ∧ (execute_pull m (some g0) (geo :: gs) geo_type strengthText
          smoothText fail s).state.errorDialogs = s.errorDialogs
      ∧ (fail = true →
          (execute_pull m (some g0) (geo :: gs) geo_type strengthText
            smoothText fail s).raised = some PyErr.hostError)
      ∧ (fail = false →
          (execute_pull m (some g0) (geo :: gs) geo_type strengthText
            smoothText fail s).paintCall
            = some (resolvedVerts m geo_type,
                PyNum.int (pyTruncate smoothText)))) := by
  cases fail <;>
    simp [superDelta_execute, execute_push, execute_pull, selection_check,
      value_text, pyIntCoerce, hv]

/-- C2 amended witness: the amended theorem applied on the failure
path of a concrete state: the guarded Push entry point shows a dialog,
while the unguarded Pull entry point re-raises. -/
theorem C2_entry_points_amended_witness :
    (execute_push m0 ["pSphere1"] [Item.vtxItem 0] 5 2 true s0).state.errorDialogs
      = s0.errorDialogs + 1
    ∧ (execute_pull m0 (some "prevObj") ["pSphere1"] [Item.vtxItem 0] 5 2
        true s0).raised = some PyErr.hostError :=
  ⟨(C2_entry_points_amended m0 "prevObj" "pSphere1" [] [Item.vtxItem 0]
      10 5 2 true s0 rfl).2.1.2.2.2.2.1 rfl,
   (C2_entry_points_amended m0 "prevObj" "pSphere1" [] [Item.vtxItem 0]
      10 5 2 true s0 rfl).2.2.2.2.2.2.1 rfl⟩

end IPRescue
